import Mathlib

/-
Verification development for the `dz_latency` reporting script
(src/dz_latency.py).  The script probes a set of IP addresses, resolves
each IP to a validator identity through a gossip snapshot, checks the
identity against the active-validator set, optionally enriches the row
with a geolocation, and writes a CSV report.  The definitions below are a
shallow embedding of the script: every external call (subprocess, HTTP)
is represented by an explicit outcome value, and the pure data
processing is translated function by function.
-/

namespace DZLatency

/-- Python truthiness of an optional string value: `None` and the empty
string are falsy, every other string is truthy. -/
def pyTruthyStr : Option String → Bool
  | none => false
  | some s => s != ""

/-- Models Python `s.replace(",", "")` as used at src/dz_latency.py:295:
removal of every occurrence of the comma character. -/
def stripCommas (s : String) : String :=
  String.mk (s.toList.filter (fun c => c != ','))

/-- One record of the gossip snapshot (`solana gossip --output=json`);
`none` models an absent JSON field, as `dict.get` returns `None`. -/
structure GossipEntry where
  ipAddress : Option String
  identityPubkey : Option String
  deriving DecidableEq

/-- One entry of the list under the `validators` key of
`solana validators --output=json`. -/
structure ValEntry where
  identityPubkey : Option String
  deriving DecidableEq

/-- One entry of the `solana validator-info get --output=json` list;
`infoName` models `v.get("info", {}).get("name")`, `none` standing for an
absent `info` object or an absent `name` field. -/
structure InfoEntry where
  identityPubkey : Option String
  infoName : Option String
  deriving DecidableEq

/-- Outcome of one external CLI invocation feeding a loader.  Every
constructor except `ok` is one of the failure modes the Python code
catches: non-zero exit status, missing executable (`FileNotFoundError`),
`json.JSONDecodeError`, `subprocess.TimeoutExpired`, or any other
exception. -/
inductive LoadOutcome (α : Type) where
  | cmdFailed
  | exeNotFound
  | decodeError
  | timedOut
  | otherError
  | ok (data : α)

/-- Whether the external invocation failed: every constructor but `ok`. -/
def LoadOutcome.isFailure {α : Type} : LoadOutcome α → Bool
  | .ok _ => false
  | _ => true

/-- Embeds `load_active_validators` (src/dz_latency.py:129-161): on any
failure it returns the empty collection; on success it collects the
truthy `identityPubkey` of each entry of `data.get("validators", [])`
(the `Option` payload models a possibly absent `validators` key).  The
Python `set` is modelled as the list of collected keys; the program uses
it only for membership tests and emptiness. -/
def load_active_validators (o : LoadOutcome (Option (List ValEntry))) : List String :=
  match o with
  | .ok data =>
    (data.getD []).filterMap (fun v =>
      match v.identityPubkey with
      | some k => if k != "" then some k else none
      | none => none)
  | _ => []

/-- Embeds `load_validator_details` (src/dz_latency.py:163-198): on any
failure the empty map; on success the pairs `(identityPubkey, info.name)`
of the entries where both fields are truthy, kept in order.  The Python
dict comprehension is modelled as this chronological binding list read
with last-binding-wins lookup (`dictGetD`). -/
def load_validator_details (o : LoadOutcome (List InfoEntry)) : List (String × String) :=
  match o with
  | .ok entries =>
    entries.filterMap (fun v =>
      match v.identityPubkey, v.infoName with
      | some k, some n => if k != "" && n != "" then some (k, n) else none
      | _, _ => none)
  | _ => []

/-- Python `m.get(k, d)` over a chronological binding list: the value of
the last binding of `k` (a later dict-comprehension binding overwrites an
earlier one), else the default `d`. -/
def dictGetD (m : List (String × String)) (k d : String) : String :=
  match (m.filter (fun p => p.1 == k)).getLast? with
  | some p => p.2
  | none => d

/-- Embeds `load_gossip_data` (src/dz_latency.py:74-99): `none` on any
failure, the parsed record list on success. -/
def load_gossip_data (o : LoadOutcome (List GossipEntry)) : Option (List GossipEntry) :=
  match o with
  | .ok g => some g
  | _ => none

/-- Embeds `get_identity_from_gossip` (src/dz_latency.py:101-127): scan
the snapshot in its natural order; at each record whose `ipAddress`
equals the query exactly, return its `identityPubkey` when that value is
truthy, otherwise keep scanning; `none` (Python `None`) when the scan
ends without returning. -/
def get_identity_from_gossip (ip_address : String) : List GossipEntry → Option String
  | [] => none
  | entry :: rest =>
    if entry.ipAddress = some ip_address then
      match entry.identityPubkey with
      | some k =>
        if k != "" then some k else get_identity_from_gossip ip_address rest
      | none => get_identity_from_gossip ip_address rest
    else
      get_identity_from_gossip ip_address rest

/-- Character class `[\d.]` of the latency regular expression of
src/dz_latency.py:22. -/
def isDigitOrDot (c : Char) : Bool := c.isDigit || c == '.'

/-- Drops a literal character sequence from the front of `cs`, failing
when `cs` does not start with it. -/
def dropLit : List Char → List Char → Option (List Char)
  | [], cs => some cs
  | _ :: _, [] => none
  | p :: ps, c :: cs => if c == p then dropLit ps cs else none

/-- Attempts the pattern `min/avg/max/mdev = [\d.]+/([\d.]+)/[\d.]+/[\d.]+ ms`
at the head of `cs`, returning the captured second number (the average).
Because `/` and the space are outside the class `[\d.]`, the greedy
matching of the regular expression needs no backtracking here, so
maximal-munch spans are an exact translation. -/
def matchLatencyAt (cs : List Char) : Option String :=
  match dropLit "min/avg/max/mdev = ".toList cs with
  | none => none
  | some r0 =>
    let a := r0.takeWhile isDigitOrDot
    let r1 := r0.dropWhile isDigitOrDot
    if a.isEmpty then none else
    match r1 with
    | '/' :: r2 =>
      let b := r2.takeWhile isDigitOrDot
      let r3 := r2.dropWhile isDigitOrDot
      if b.isEmpty then none else
      match r3 with
      | '/' :: r4 =>
        let c := r4.takeWhile isDigitOrDot
        let r5 := r4.dropWhile isDigitOrDot
        if c.isEmpty then none else
        match r5 with
        | '/' :: r6 =>
          let d := r6.takeWhile isDigitOrDot
          let r7 := r6.dropWhile isDigitOrDot
          if d.isEmpty then none else
          match r7 with
          | ' ' :: 'm' :: 's' :: _ => some (String.mk b)
          | _ => none
        | _ => none
      | _ => none
    | _ => none

/-- Leftmost search for the latency pattern, as `re.search` performs it:
try every start position from the left, first success wins. -/
def searchLatency : List Char → Option String
  | [] => none
  | c :: rest =>
    match matchLatencyAt (c :: rest) with
    | some g => some g
    | none => searchLatency rest

/-- Searches a ping transcript for the summary pattern of
src/dz_latency.py:22 and returns the captured average latency. -/
def findLatency (s : String) : Option String :=
  searchLatency s.toList

/-- Outcome of the `ping` subprocess call: it completed with an exit
status and a transcript, it timed out (`subprocess.TimeoutExpired`), or
some other exception was raised. -/
inductive PingOutcome where
  | completed (returncode : Int) (stdout : String)
  | timedOut
  | error

/-- Embeds `ping_ip` (src/dz_latency.py:10-43): the captured average
latency when the process exits with status zero and the pattern matches
its output, the literal `"unreachable"` in every other case. -/
def ping_ip (o : PingOutcome) : String :=
  match o with
  | .completed rc out =>
    if rc = 0 then
      match findLatency out with
      | some latency => latency
      | none => "unreachable"
    else "unreachable"
  | .timedOut => "unreachable"
  | .error => "unreachable"

/-- Parsed body of the geolocation HTTP response; `none` models an
absent field. -/
structure GeoBody where
  status : Option String
  city : Option String
  country : Option String
  deriving DecidableEq

/-- Outcome of the geolocation HTTP call: a parsed body, a request-layer
failure (network error, or an HTTP error status raised by
`raise_for_status`), or any other exception (for example a JSON decode
failure of the body). -/
inductive GeoOutcome where
  | ok (body : GeoBody)
  | requestError
  | otherError

/-- Embeds `get_ip_location` (src/dz_latency.py:200-228): the `(city,
country)` fields (each defaulting to `"Unknown"`) when the body's
`status` field equals `"success"`, the pair `("Unknown", "Unknown")` in
every other case. -/
def get_ip_location (o : GeoOutcome) : String × String :=
  match o with
  | .ok body =>
    if body.status = some "success" then
      (body.city.getD "Unknown", body.country.getD "Unknown")
    else ("Unknown", "Unknown")
  | .requestError => ("Unknown", "Unknown")
  | .otherError => ("Unknown", "Unknown")

/-- The reconciliation step of `main` (src/dz_latency.py:275-289) as the
pure function it is: status and display name from the gossip lookup, the
active set and the name map.  The Python guard `if identity_key:` is the
truthiness test: `None` and the empty string both fall through to the
defaults `("gossip_not_found", "")`. -/
def classify (ip : String) (gossip : List GossipEntry) (activeSet : List String)
    (nameMap : List (String × String)) : String × String :=
  match get_identity_from_gossip ip gossip with
  | some identity_key =>
    if identity_key = "" then ("gossip_not_found", "")
    else if identity_key ∈ activeSet then
      ("validator", dictGetD nameMap identity_key "Unknown")
    else ("gossip", "")
  | none => ("gossip_not_found", "")

/-- One iteration of the per-IP loop of `main` (src/dz_latency.py:271-295):
probe, classify, and assemble the row.  Under `no_geo` the row is
`[ip, status, name, latency]` with the raw name; otherwise the geo lookup
is consulted and the name is written with its commas stripped. -/
def buildRow (noGeo : Bool) (ping : String → String) (geo : String → String × String)
    (gossip : List GossipEntry) (activeSet : List String)
    (nameMap : List (String × String)) (ip : String) : List String :=
  let latency := ping ip
  let sc := classify ip gossip activeSet nameMap
  if noGeo then [ip, sc.1, sc.2, latency]
  else [ip, sc.1, stripCommas sc.2, latency, (geo ip).1, (geo ip).2]

/-- The header row `main` writes (src/dz_latency.py:302-305), exactly as
the code has it: the six-column header under `no_geo`, the four-column
header otherwise. -/
def csvHeader (noGeo : Bool) : List String :=
  if noGeo then ["IP", "Status", "Validator Name", "Latency", "City", "Country"]
  else ["IP", "Status", "Validator Name", "Latency"]

/-- The run of `main` after the four loads (src/dz_latency.py:253-307):
abort producing no file (`none`) when the IP list or any loaded
collection is empty or missing — the four `if not ...: return` guards in
their source order — otherwise the written file, as its header and its
data rows. -/
def runMain (ips : List String) (activeSet : List String)
    (nameMap : List (String × String)) (gossip : Option (List GossipEntry))
    (noGeo : Bool) (ping : String → String) (geo : String → String × String) :
    Option (List String × List (List String)) :=
  if ips = [] then none
  else if activeSet = [] then none
  else if nameMap = [] then none
  else
    match gossip with
    | none => none
    | some g =>
      if g = [] then none
      else some (csvHeader noGeo, ips.map (buildRow noGeo ping geo g activeSet nameMap))

/-- A whole run of `main` from the three registry load outcomes: each
loader turns its outcome into a collection and `runMain` consumes them. -/
def runFromLoads (ips : List String) (a : LoadOutcome (Option (List ValEntry)))
    (i : LoadOutcome (List InfoEntry)) (g : LoadOutcome (List GossipEntry))
    (noGeo : Bool) (ping : String → String) (geo : String → String × String) :
    Option (List String × List (List String)) :=
  runMain ips (load_active_validators a) (load_validator_details i)
    (load_gossip_data g) noGeo ping geo

/-- Constant probe outcome, used to instantiate concrete runs. -/
def pingStub : String → String := fun _ => "unreachable"

/-- Constant geo outcome, used to instantiate concrete runs. -/
def geoStub : String → String × String := fun _ => ("Unknown", "Unknown")

/-- The gossip lookup as claim C6 literally words it: the identity field
of the first record whose IP field equals the query, `none` when no
record's IP field equals the query.  Written from the spec's words, for
comparison against `get_identity_from_gossip`. -/
def lookup_spec_first_record (ip : String) (g : List GossipEntry) : Option String :=
  (g.find? (fun e => e.ipAddress == some ip)).bind (fun e => e.identityPubkey)

/-! ### Helper lemmas -/

/-- The gossip lookup only ever returns a truthy (non-empty) identity. -/
theorem gig_ne_empty (ip k : String) (g : List GossipEntry)
    (h : get_identity_from_gossip ip g = some k) : k ≠ "" := by
  induction g with
  | nil => simp [get_identity_from_gossip] at h
  | cons e rest ih =>
    simp only [get_identity_from_gossip] at h
    split at h
    · split at h
      · split at h
        · rename_i hcond
          injection h with h
          subst h
          simpa using hcond
        · exact ih h
      · exact ih h
    · exact ih h

/-- A failing active-set load returns the empty collection. -/
theorem load_active_fail (o : LoadOutcome (Option (List ValEntry)))
    (h : o.isFailure = true) : load_active_validators o = [] := by
  cases o <;> simp_all [LoadOutcome.isFailure, load_active_validators]

/-- A failing name-map load returns the empty collection. -/
theorem load_details_fail (o : LoadOutcome (List InfoEntry))
    (h : o.isFailure = true) : load_validator_details o = [] := by
  cases o <;> simp_all [LoadOutcome.isFailure, load_validator_details]

/-- The gossip load returns `none` exactly on failure. -/
theorem gossip_none_iff (o : LoadOutcome (List GossipEntry)) :
    load_gossip_data o = none ↔ o.isFailure = true := by
  cases o <;> simp [LoadOutcome.isFailure, load_gossip_data]

/-- The run aborts with no output exactly when the IP list, the active
set, the name map, or the gossip snapshot is empty or missing. -/
theorem runMain_none_iff (ips : List String) (activeSet : List String)
    (nameMap : List (String × String)) (gossip : Option (List GossipEntry))
    (noGeo : Bool) (ping : String → String) (geo : String → String × String) :
    runMain ips activeSet nameMap gossip noGeo ping geo = none ↔
      (ips = [] ∨ activeSet = [] ∨ nameMap = [] ∨ gossip = none ∨ gossip = some []) := by
  unfold runMain
  split_ifs with h1 h2 h3
  · simp [h1]
  · simp [h2]
  · simp [h3]
  · cases gossip with
    | none => simp
    | some g =>
      by_cases hg : g = []
      · simp [hg, h1, h2, h3]
      · simp [hg, h1, h2, h3]

/-- The characters of a comma-stripped string are the comma-free
characters of the original. -/
theorem stripCommas_toList (s : String) :
    (stripCommas s).toList = s.toList.filter (fun c => c != ',') := rfl

/-! ### Claim theorems -/

/-- C1: for every IP, gossip snapshot, active set and name map, the
classification is the pure three-way function: a `none` gossip lookup
gives `("gossip_not_found", "")`; a resolved identity in the active set
gives `("validator", name)` where `name` is the name map's entry for that
identity, the literal `"Unknown"` when the identity is absent from the
map; a resolved identity outside the active set gives `("gossip", "")`. -/
theorem C1_classification (ip : String) (g : List GossipEntry)
    (activeSet : List String) (nameMap : List (String × String)) :
    (get_identity_from_gossip ip g = none →
      classify ip g activeSet nameMap = ("gossip_not_found", "")) ∧
    (∀ k, get_identity_from_gossip ip g = some k → k ∈ activeSet →
      classify ip g activeSet nameMap = ("validator", dictGetD nameMap k "Unknown")) ∧
    (∀ k, get_identity_from_gossip ip g = some k → k ∈ activeSet →
      (∀ p ∈ nameMap, p.1 ≠ k) →
      classify ip g activeSet nameMap = ("validator", "Unknown")) ∧
    (∀ k, get_identity_from_gossip ip g = some k → k ∉ activeSet →
      classify ip g activeSet nameMap = ("gossip", "")) := by
  refine ⟨?_, ?_, ?_, ?_⟩
  · intro h
    simp [classify, h]
  · intro k hk hmem
    have hne := gig_ne_empty ip k g hk
    simp [classify, hk, hne, hmem]
  · intro k hk hmem habs
    have hne := gig_ne_empty ip k g hk
    have hd : dictGetD nameMap k "Unknown" = "Unknown" := by
      unfold dictGetD
      have hfil : nameMap.filter (fun p => p.1 == k) = [] := by
        rw [List.filter_eq_nil_iff]
        intro p hp
        simp [habs p hp]
      simp [hfil]
    simp [classify, hk, hne, hmem, hd]
  · intro k hk hmem
    have hne := gig_ne_empty ip k g hk
    simp [classify, hk, hne, hmem]

/-- Witness for C1 at the spec's scenario: gossip maps `10.0.0.5` to
`ABC`, `ABC` is active and named `Node1`, so the classification is
`("validator", "Node1")`. -/
theorem C1_classification_witness :
    classify "10.0.0.5" [⟨some "10.0.0.5", some "ABC"⟩] ["ABC"] [("ABC", "Node1")] =
      ("validator", "Node1") := by
  have h := (C1_classification "10.0.0.5" [⟨some "10.0.0.5", some "ABC"⟩] ["ABC"]
      [("ABC", "Node1")]).2.1 "ABC" (by decide) (by decide)
  have hd : dictGetD [("ABC", "Node1")] "ABC" "Unknown" = "Node1" := by decide
  rw [hd] at h
  exact h

/-- C7: the status of a classification is one of the three literals
`validator`, `gossip`, `gossip_not_found`; the name is non-empty only
when the status is `validator`; and the status field of every assembled
report row is exactly the classification's status, for every probe
function, geo function and geo flag (independence from probe and geo
outcomes). -/
theorem C7_invariants (ip : String) (g : List GossipEntry) (activeSet : List String)
    (nameMap : List (String × String)) (noGeo : Bool) (ping : String → String)
    (geo : String → String × String) :
    ((classify ip g activeSet nameMap).1 = "validator" ∨
      (classify ip g activeSet nameMap).1 = "gossip" ∨
      (classify ip g activeSet nameMap).1 = "gossip_not_found") ∧
    ((classify ip g activeSet nameMap).2 ≠ "" →
      (classify ip g activeSet nameMap).1 = "validator") ∧
    (buildRow noGeo ping geo g activeSet nameMap ip).get? 1 =
      some (classify ip g activeSet nameMap).1 := by
  refine ⟨?_, ?_, ?_⟩
  · cases hid : get_identity_from_gossip ip g with
    | none => simp [classify, hid]
    | some k =>
      by_cases hk : k = ""
      · simp [classify, hid, hk]
      · by_cases hm : k ∈ activeSet
        · simp [classify, hid, hk, hm]
        · simp [classify, hid, hk, hm]
  · cases hid : get_identity_from_gossip ip g with
    | none => simp [classify, hid]
    | some k =>
      by_cases hk : k = ""
      · simp [classify, hid, hk]
      · by_cases hm : k ∈ activeSet
        · simp [classify, hid, hk, hm]
        · simp [classify, hid, hk, hm]
  · cases noGeo <;> rfl

/-- Witness for C7: at the spec's scenario the non-empty name `Node1`
forces status `validator`. -/
theorem C7_invariants_witness :
    (classify "10.0.0.5" [⟨some "10.0.0.5", some "ABC"⟩] ["ABC"] [("ABC", "Node1")]).1 =
      "validator" :=
  (C7_invariants "10.0.0.5" [⟨some "10.0.0.5", some "ABC"⟩] ["ABC"] [("ABC", "Node1")]
      true pingStub geoStub).2.1 (by decide)

/-- C8: the probe returns the captured aggregate latency exactly when the
process exits with status zero and the summary pattern matches its
output; every other case — non-zero exit status, pattern absent from
otherwise-successful output, timeout, or any other internal failure —
returns the single `"unreachable"` sentinel. -/
theorem C8_ping (o : PingOutcome) :
    (∀ out latency, o = .completed 0 out → findLatency out = some latency →
      ping_ip o = latency) ∧
    (∀ rc out, o = .completed rc out → rc ≠ 0 → ping_ip o = "unreachable") ∧
    (∀ out, o = .completed 0 out → findLatency out = none →
      ping_ip o = "unreachable") ∧
    (o = .timedOut → ping_ip o = "unreachable") ∧
    (o = .error → ping_ip o = "unreachable") := by
  refine ⟨?_, ?_, ?_, ?_, ?_⟩
  · rintro out latency rfl h
    simp [ping_ip, h]
  · rintro rc out rfl h
    simp [ping_ip, h]
  · rintro out rfl h
    simp [ping_ip, h]
  · rintro rfl
    rfl
  · rintro rfl
    rfl

/-- Witness for C8: a real ping summary line yields its average; a
non-zero exit status and a timeout yield the sentinel. -/
theorem C8_ping_witness :
    ping_ip (.completed 0 "rtt min/avg/max/mdev = 10.103/12.450/15.001/1.234 ms") =
      "12.450" ∧
    ping_ip (.completed 1 "rtt min/avg/max/mdev = 10.103/12.450/15.001/1.234 ms") =
      "unreachable" ∧
    ping_ip .timedOut = "unreachable" :=
  ⟨(C8_ping (.completed 0 "rtt min/avg/max/mdev = 10.103/12.450/15.001/1.234 ms")).1
      "rtt min/avg/max/mdev = 10.103/12.450/15.001/1.234 ms" "12.450" rfl (by decide),
   (C8_ping (.completed 1 "rtt min/avg/max/mdev = 10.103/12.450/15.001/1.234 ms")).2.1
      1 "rtt min/avg/max/mdev = 10.103/12.450/15.001/1.234 ms" rfl (by decide),
   (C8_ping .timedOut).2.2.2.1 rfl⟩

/-- C9: the geo lookup always returns a `(city, country)` pair and never
fails its caller: a network or HTTP-status error, any other internal
failure, and a body whose status field differs from `"success"` all
yield exactly `("Unknown", "Unknown")`. -/
theorem C9_geo (o : GeoOutcome) :
    (o = .requestError → get_ip_location o = ("Unknown", "Unknown")) ∧
    (o = .otherError → get_ip_location o = ("Unknown", "Unknown")) ∧
    (∀ body, o = .ok body → body.status ≠ some "success" →
      get_ip_location o = ("Unknown", "Unknown")) := by
  refine ⟨?_, ?_, ?_⟩
  · rintro rfl
    rfl
  · rintro rfl
    rfl
  · rintro body rfl h
    simp [get_ip_location, h]

/-- Witness for C9: a body with status `"fail"` degrades to the pair of
sentinels even though it carries a city and a country. -/
theorem C9_geo_witness :
    get_ip_location (.ok ⟨some "fail", some "Paris", some "France"⟩) =
      ("Unknown", "Unknown") :=
  (C9_geo (.ok ⟨some "fail", some "Paris", some "France"⟩)).2.2
    ⟨some "fail", some "Paris", some "France"⟩ rfl (by decide)

/-- C2 (code bug): evaluated at a run with geo enrichment disabled
(`no_geo` set), the code writes the six-column header while every data
row has four fields, and with geo enrichment enabled it writes the
four-column header while every data row has six fields — the header
branches of src/dz_latency.py:302-305 are inverted relative to the data
rows of src/dz_latency.py:291-295. -/
theorem C2_header_mismatch :
    csvHeader true = ["IP", "Status", "Validator Name", "Latency", "City", "Country"] ∧
    (buildRow true pingStub geoStub [⟨some "10.0.0.5", some "ABC"⟩] ["ABC"]
      [("ABC", "Node1")] "10.0.0.5").length = 4 ∧
    csvHeader false = ["IP", "Status", "Validator Name", "Latency"] ∧
    (buildRow false pingStub geoStub [⟨some "10.0.0.5", some "ABC"⟩] ["ABC"]
      [("ABC", "Node1")] "10.0.0.5").length = 6 :=
  ⟨rfl, rfl, rfl, rfl⟩

/-- Counterexample to C3 as stated: under the geo-disabled flag value the
validator name `No,de1` is written into the data row with its comma
intact, although the claim asks for stripping under every geo-flag
value; the in-memory classification also carries the comma. -/
theorem C3_counterexample :
    (buildRow true pingStub geoStub [⟨some "10.0.0.5", some "ABC"⟩] ["ABC"]
      [("ABC", "No,de1")] "10.0.0.5").get? 2 = some "No,de1" ∧
    ("No,de1".toList.all (fun c => c != ',')) = false ∧
    (classify "10.0.0.5" [⟨some "10.0.0.5", some "ABC"⟩] ["ABC"]
      [("ABC", "No,de1")]).2 = "No,de1" :=
  ⟨rfl, rfl, rfl⟩

/-- C3 amended: when geo enrichment is enabled the name field of the
written data row is the in-memory validator name with every comma
stripped (hence comma-free); when geo enrichment is disabled the name is
written unmodified; in both cases the in-memory classification result is
the untouched `classify` output, unaffected by the stripping. -/
theorem C3_comma_stripping (g : List GossipEntry) (activeSet : List String)
    (nameMap : List (String × String)) (ip : String) (ping : String → String)
    (geo : String → String × String) :
    (buildRow false ping geo g activeSet nameMap ip).get? 2 =
      some (stripCommas (classify ip g activeSet nameMap).2) ∧
    ((stripCommas (classify ip g activeSet nameMap).2).toList.all
      (fun c => c != ',')) = true ∧
    (buildRow true ping geo g activeSet nameMap ip).get? 2 =
      some (classify ip g activeSet nameMap).2 := by
  refine ⟨rfl, ?_, rfl⟩
  rw [stripCommas_toList, List.all_eq_true]
  intro c hc
  exact (List.mem_filter.mp hc).2

/-- Counterexample to C5 as stated: a timed-out active-set load and a
timed-out name-map load return values indistinguishable from those of
successful loads that found zero entries — the bare empty collection,
with no failure signal. -/
theorem C5_counterexample :
    (LoadOutcome.timedOut : LoadOutcome (Option (List ValEntry))).isFailure = true ∧
    (LoadOutcome.ok (some ([] : List ValEntry))).isFailure = false ∧
    load_active_validators .timedOut = load_active_validators (.ok (some [])) ∧
    (LoadOutcome.timedOut : LoadOutcome (List InfoEntry)).isFailure = true ∧
    (LoadOutcome.ok ([] : List InfoEntry)).isFailure = false ∧
    load_validator_details .timedOut = load_validator_details (.ok []) :=
  ⟨rfl, rfl, rfl, rfl, rfl, rfl⟩

/-- C5 amended: every failing invocation of the active-set load and of
the name-map load returns the bare empty collection, with no
accompanying failure signal — so a failed load is indistinguishable from
a load that legitimately found zero entries — and the caller compensates
by aborting the run (producing no output) whenever either collection is
empty. -/
theorem C5_failure_collapses_to_empty :
    (∀ o : LoadOutcome (Option (List ValEntry)), o.isFailure = true →
      load_active_validators o = []) ∧
    (∀ o : LoadOutcome (List InfoEntry), o.isFailure = true →
      load_validator_details o = []) ∧
    (∀ (ips : List String) (nameMap : List (String × String))
      (gossip : Option (List GossipEntry)) (noGeo : Bool) (ping : String → String)
      (geo : String → String × String),
      runMain ips [] nameMap gossip noGeo ping geo = none) ∧
    (∀ (ips : List String) (activeSet : List String)
      (gossip : Option (List GossipEntry)) (noGeo : Bool) (ping : String → String)
      (geo : String → String × String),
      runMain ips activeSet [] gossip noGeo ping geo = none) := by
  refine ⟨load_active_fail, load_details_fail, ?_, ?_⟩
  · intro ips nameMap gossip noGeo ping geo
    by_cases h : ips = [] <;> simp [runMain, h]
  · intro ips activeSet gossip noGeo ping geo
    by_cases h1 : ips = [] <;> by_cases h2 : activeSet = [] <;>
      simp [runMain, h1, h2]

/-- Witness for the amended C5: a timed-out active-set load and a
JSON-decode-failed name-map load both come back empty, and a run with an
empty active set produces no output. -/
theorem C5_failure_collapses_to_empty_witness :
    load_active_validators (LoadOutcome.timedOut : LoadOutcome (Option (List ValEntry))) = [] ∧
    load_validator_details (LoadOutcome.decodeError : LoadOutcome (List InfoEntry)) = [] ∧
    runMain ["10.0.0.5"] [] [("ABC", "Node1")] (some [⟨some "10.0.0.5", some "ABC"⟩])
      true pingStub geoStub = none :=
  ⟨C5_failure_collapses_to_empty.1 .timedOut rfl,
   C5_failure_collapses_to_empty.2.1 .decodeError rfl,
   C5_failure_collapses_to_empty.2.2.1 ["10.0.0.5"] [("ABC", "Node1")]
     (some [⟨some "10.0.0.5", some "ABC"⟩]) true pingStub geoStub⟩

/-- Counterexample to C6 as stated: in a snapshot whose first record for
`10.0.0.7` carries no identity, the lookup does not return that first
matching record's (absent) identity — it skips it and returns the
identity `KEY` of the second matching record. -/
theorem C6_counterexample :
    get_identity_from_gossip "10.0.0.7"
      [⟨some "10.0.0.7", none⟩, ⟨some "10.0.0.7", some "KEY"⟩] = some "KEY" ∧
    lookup_spec_first_record "10.0.0.7"
      [⟨some "10.0.0.7", none⟩, ⟨some "10.0.0.7", some "KEY"⟩] = none :=
  ⟨rfl, rfl⟩

/-- C6 amended: the gossip lookup linearly scans the snapshot in its
natural order and returns the identity of the first record whose IP
field equals the query exactly (no case or whitespace normalization) and
whose identity field is present and non-empty; it returns `none` when no
such record exists — in particular when no record's IP field equals the
query. -/
theorem C6_lookup_first_truthy (ip : String) (g : List GossipEntry) :
    get_identity_from_gossip ip g =
      (g.find? (fun e => e.ipAddress == some ip && pyTruthyStr e.identityPubkey)).bind
        (fun e => e.identityPubkey) := by
  induction g with
  | nil => rfl
  | cons e rest ih =>
    by_cases h1 : e.ipAddress = some ip
    · cases hk : e.identityPubkey with
      | none => simp [get_identity_from_gossip, List.find?_cons, h1, hk, pyTruthyStr, ih]
      | some k =>
        by_cases hk0 : k = ""
        · subst hk0
          simp [get_identity_from_gossip, List.find?_cons, h1, hk, pyTruthyStr, ih]
        · simp [get_identity_from_gossip, List.find?_cons, h1, hk, pyTruthyStr, hk0]
    · simp [get_identity_from_gossip, List.find?_cons, h1, ih]

/-- C10: the gossip lookup skips every record whose IP matches the query
but whose identity field is absent or empty, and returns the identity of
the first matching record carrying a non-empty identity — the head of
the filtered snapshot — so when every matching record lacks an identity
the filter is empty and the lookup returns `none`. -/
theorem C10_lookup_skips_blank_identities (ip : String) (g : List GossipEntry) :
    get_identity_from_gossip ip g =
      ((g.filter (fun e => e.ipAddress == some ip && pyTruthyStr e.identityPubkey)).head?).bind
        (fun e => e.identityPubkey) := by
  induction g with
  | nil => rfl
  | cons e rest ih =>
    by_cases h1 : e.ipAddress = some ip
    · cases hk : e.identityPubkey with
      | none => simp [get_identity_from_gossip, List.filter_cons, h1, hk, pyTruthyStr, ih]
      | some k =>
        by_cases hk0 : k = ""
        · subst hk0
          simp [get_identity_from_gossip, List.filter_cons, h1, hk, pyTruthyStr, ih]
        · simp [get_identity_from_gossip, List.filter_cons, h1, hk, pyTruthyStr, hk0]
    · simp [get_identity_from_gossip, List.filter_cons, h1, ih]

/-- Counterexample to C4 as stated: a run in which none of the three
setup loads failed and the IP set is non-empty still terminates with no
output, because the successfully loaded active set happens to be empty —
the code's guards test emptiness, not load failure. -/
theorem C4_counterexample :
    (LoadOutcome.ok (some ([] : List ValEntry))).isFailure = false ∧
    (LoadOutcome.ok [(⟨some "ABC", some "Node1"⟩ : InfoEntry)]).isFailure = false ∧
    (LoadOutcome.ok [(⟨some "10.0.0.5", some "ABC"⟩ : GossipEntry)]).isFailure = false ∧
    (["10.0.0.5"] : List String) ≠ [] ∧
    runFromLoads ["10.0.0.5"] (.ok (some [])) (.ok [⟨some "ABC", some "Node1"⟩])
      (.ok [⟨some "10.0.0.5", some "ABC"⟩]) true pingStub geoStub = none :=
  ⟨rfl, rfl, rfl, by decide, rfl⟩

/-- C4 amended: the run terminates before processing any IP and produces
no output file exactly when the IP set is empty, any of the three setup
loads failed, or any of the three loaded collections is empty even after
a successful load (every failure yields an empty or missing collection,
so failure always aborts); in every other case the output file is
written, even when individual rows contain the failure sentinels. -/
theorem C4_abort_conditions (ips : List String)
    (a : LoadOutcome (Option (List ValEntry))) (i : LoadOutcome (List InfoEntry))
    (g : LoadOutcome (List GossipEntry)) (noGeo : Bool) (ping : String → String)
    (geo : String → String × String) :
    runFromLoads ips a i g noGeo ping geo = none ↔
      (a.isFailure = true ∨ i.isFailure = true ∨ g.isFailure = true ∨ ips = [] ∨
       load_active_validators a = [] ∨ load_validator_details i = [] ∨
       load_gossip_data g = some []) := by
  unfold runFromLoads
  rw [runMain_none_iff]
  have ha := load_active_fail a
  have hi := load_details_fail i
  have hg := gossip_none_iff g
  tauto

end DZLatency
